import Mathlib

/-!
Formal model of the backup-server-xd media relay.

Two variants of the server exist in the repository:

* the admin-panel variant (`index.js`): an Express `POST /upload` handler with
  a stats ledger (`totalUploaded`, `totalPhotos`, `totalVideos`, `totalFailed`,
  `totalBytes`) and a newest-first recent-file history capped at 50 entries
  (`logFile`), plus a paginated file-list renderer
  (`buildFileListMessage` / `buildFileListButtons`);

* the v2 variant (`part_000`): a `POST /upload` handler guarded by an
  `authCheck` middleware comparing a shared secret, with an `uploadCount` /
  `lastUpload` ledger and an oldest-first recent-file history capped at
  20 entries.

Handlers are embedded as pure functions from the current in-memory state, the
parsed request, and the outcomes of the external Telegram calls (delivery and
notification, which are network I/O and therefore inputs of the model) to the
HTTP response, the new state, and the list of media delivery calls issued.
File buffers are modelled as lists of bytes; clock readings are passed in as
strings since they are ambient I/O.
-/

namespace BackupServer

/-- JavaScript `a || b` on two optional strings: `undefined` and the empty
string are falsy, so they fall through to `b`. -/
def jsOrOpt (a b : Option String) : Option String :=
  match a with
  | none => b
  | some s => if s = "" then b else some s

/-- JavaScript `a || d` where the fallback `d` is a plain string: `undefined`
and the empty string are falsy and yield `d`. -/
def jsOrDefault (a : Option String) (d : String) : String :=
  match a with
  | none => d
  | some s => if s = "" then d else s

/-- Multer in-memory upload: `originalname`, the raw `buffer` (modelled as its
byte list), and `mimetype`. -/
structure UploadedFile where
  originalname : String
  bufferBytes : List Nat
  mimetype : String
deriving DecidableEq

/-- Outcome of an awaited Telegram API call: it either resolves, or rejects
with an error message (`err.message`). -/
inductive Outcome where
  | success
  | failure (errMsg : String)
deriving DecidableEq

/-- A media delivery call issued to the Telegram bot API, recording which
type-specific method was used, the filename and the bytes sent. -/
inductive DeliveryCall where
  | sendPhoto (name : String) (bufferBytes : List Nat)
  | sendVideo (name : String) (bufferBytes : List Nat)
deriving DecidableEq

namespace Admin

/-- In-memory stats object of the admin-panel variant (`index.js`). -/
structure Stats where
  totalUploaded : Nat
  totalPhotos : Nat
  totalVideos : Nat
  totalFailed : Nat
  totalBytes : Nat
deriving DecidableEq

/-- One entry of the `recentFiles` history of the admin-panel variant. -/
structure FileRec where
  name : String
  type : String
  size : Nat
  status : String
  time : String
deriving DecidableEq

/-- `MAX_RECENT` from `index.js`: the history keeps the last 50 files. -/
def MAX_RECENT : Nat := 50

/-- `logFile` from `index.js`: `unshift` the new record (newest first), then
`pop` the last (oldest) entry when the length exceeds `MAX_RECENT`. The
timestamp `new Date().toISOString()` is passed in as `time`. -/
def logFile (recentFiles : List FileRec) (name ty : String) (size : Nat)
    (status time : String) : List FileRec :=
  let rf := { name := name, type := ty, size := size, status := status,
              time := time } :: recentFiles
  if MAX_RECENT < rf.length then rf.dropLast else rf

/-- Whole mutable state of the admin-panel variant: stats plus history. -/
structure ServerState where
  stats : Stats
  recentFiles : List FileRec
deriving DecidableEq

/-- State at process start: all counters zero, empty history. -/
def initialState : ServerState :=
  { stats := { totalUploaded := 0, totalPhotos := 0, totalVideos := 0,
               totalFailed := 0, totalBytes := 0 },
    recentFiles := [] }

/-- Parsed `POST /upload` request of the admin-panel variant after multer:
the optional multipart `file`, and the optional `req.body.type` field. -/
structure UploadReq where
  file : Option UploadedFile
  bodyType : Option String
deriving DecidableEq

/-- HTTP responses the admin-panel `POST /upload` handler can produce. -/
inductive Response where
  | okSuccess (file : String)
  | badRequest (error : String)
  | serverError (error detail : String)
deriving DecidableEq

/-- The `POST /upload` handler of `index.js`. `outcome` is the result of the
awaited `sendVideo` / `sendPhoto` call; `now` is the clock reading used for
the history timestamp. Returns the response, the new state, and the media
delivery calls issued. -/
def handleUpload (st : ServerState) (req : UploadReq) (outcome : Outcome)
    (now : String) : Response × ServerState × List DeliveryCall :=
  match req.file with
  | none =>
      (.badRequest "No file received. Send as multipart field \"file\".", st, [])
  | some f =>
      let ty := jsOrDefault req.bodyType "photo"
      let size := f.bufferBytes.length
      let call := if ty = "video" then DeliveryCall.sendVideo f.originalname f.bufferBytes
                  else DeliveryCall.sendPhoto f.originalname f.bufferBytes
      match outcome with
      | .success =>
          let stats1 :=
            if ty = "video" then
              { st.stats with totalVideos := st.stats.totalVideos + 1 }
            else
              { st.stats with totalPhotos := st.stats.totalPhotos + 1 }
          let stats2 :=
            { stats1 with totalUploaded := stats1.totalUploaded + 1,
                          totalBytes := stats1.totalBytes + size }
          (.okSuccess f.originalname,
           { stats := stats2,
             recentFiles := logFile st.recentFiles f.originalname ty size "ok" now },
           [call])
      | .failure e =>
          (.serverError "Failed to forward to Telegram." e,
           { stats := { st.stats with totalFailed := st.stats.totalFailed + 1 },
             recentFiles := logFile st.recentFiles f.originalname ty size "fail" now },
           [call])

/-- One inbound `POST /upload` event: the request, the outcome of its
delivery call, and the clock reading at handling time. -/
structure Event where
  req : UploadReq
  outcome : Outcome
  now : String

/-- State transition of one event (the handler, keeping only the state). -/
def step (st : ServerState) (e : Event) : ServerState :=
  (handleUpload st e.req e.outcome e.now).2.1

/-- Run a sequence of upload events from process start. -/
def run (evs : List Event) : ServerState :=
  evs.foldl step initialState

/-- An event is a completed forward attempt when the request carries a file:
only then does the handler reach the try block and perform a delivery call
with a definitive success or failure outcome. -/
def isAttempt (e : Event) : Bool := e.req.file.isSome

/-- Number of completed forward attempts in an event sequence. -/
def countAttempts (evs : List Event) : Nat := (evs.filter isAttempt).length

/-- Fold a sequence of history insertions through `logFile`, starting from
the empty history of process start. -/
def insertAll (items : List FileRec) : List FileRec :=
  items.foldl (fun acc r => logFile acc r.name r.type r.size r.status r.time) []

/-- `PAGE_SIZE` of the file-list builders in `index.js`. -/
def PAGE_SIZE : Nat := 8

/-- The `files.slice(start, start + PAGE_SIZE)` chunk shown on a page. -/
def fileChunk (files : List FileRec) (page : Nat) : List FileRec :=
  (files.drop (page * PAGE_SIZE)).take PAGE_SIZE

/-- `buildFileListMessage` from `index.js`. The per-entry rendering (icons,
`formatBytes`, `formatTime`) is display glue passed in as `render`; the
function keeps the control flow of the source: empty-list fallback, page
header with `Math.ceil(total / PAGE_SIZE)` pages, then one rendered block
appended per file of the current chunk. -/
def buildFileListMessage (render : FileRec → String) (files : List FileRec)
    (title : String) (page : Nat) : String :=
  if files.length = 0 then
    title ++ "\n\n_No files yet._"
  else
    let total := files.length
    let pages := (total + PAGE_SIZE - 1) / PAGE_SIZE
    let header := title ++ "\n_Page " ++ toString (page + 1) ++ "/" ++
      toString pages ++ " — " ++ toString total ++ " total_\n\n"
    (fileChunk files page).foldl (fun msg f => msg ++ render f) header

/-- An inline keyboard button: display text and callback data. -/
structure Button where
  text : String
  callback : String
deriving DecidableEq

/-- `buildFileListButtons` from `index.js`: a nav row with Prev when
`page > 0` and Next when `page < pages - 1`, then a main-menu row. -/
def buildFileListButtons (files : List FileRec) (cbKey : String) (page : Nat) :
    List (List Button) :=
  let total := files.length
  let pages := (total + PAGE_SIZE - 1) / PAGE_SIZE
  let nav :=
    (if 0 < page then [{ text := "◀ Prev", callback := cbKey ++ "_" ++ toString (page - 1) : Button }] else []) ++
    (if page + 1 < pages then [{ text := "Next ▶", callback := cbKey ++ "_" ++ toString (page + 1) : Button }] else [])
  let keyboard := if 0 < nav.length then [nav] else []
  keyboard ++ [[{ text := "🏠 Main Menu", callback := "menu" }]]

end Admin

namespace V2

/-- `ADMIN_SECRET` resolution in `part_000`:
`process.env.ADMIN_SECRET || 'zidhu-secret'` — unset or empty env falls back
to the fixed secret. -/
def adminSecretOf (env : Option String) : String :=
  jsOrDefault env "zidhu-secret"

/-- One entry of the v2 `recentFiles` history (oldest first). -/
structure V2FileRec where
  name : String
  type : String
  time : String
deriving DecidableEq

/-- Mutable state of the v2 variant. -/
structure State where
  uploadCount : Nat
  lastUpload : Option String
  recentFiles : List V2FileRec
deriving DecidableEq

/-- State at process start of the v2 variant. -/
def initialState : State :=
  { uploadCount := 0, lastUpload := none, recentFiles := [] }

/-- The v2 history insertion (`part_000`): `push` the new record to the end,
then `shift` the first (oldest) entry when the length exceeds 20. -/
def pushRecent (recentFiles : List V2FileRec) (r : V2FileRec) : List V2FileRec :=
  let rf := recentFiles ++ [r]
  if 20 < rf.length then rf.drop 1 else rf

/-- Fold a sequence of history insertions through `pushRecent`, starting
from the empty history of process start. -/
def insertAll (items : List V2FileRec) : List V2FileRec :=
  items.foldl pushRecent []

/-- Parsed `POST /upload` request of the v2 variant: the `x-secret` header,
the body `secret`, the multipart `file`, and the body `fileName` / `type`
fields. -/
structure Req where
  headerSecret : Option String
  bodySecret : Option String
  file : Option UploadedFile
  bodyFileName : Option String
  bodyType : Option String
deriving DecidableEq

/-- `authCheck` middleware of `part_000`: `req.headers['x-secret'] ||
req.body?.secret` must be strictly equal to `ADMIN_SECRET`; an absent secret
is never equal to the configured string. -/
def authCheck (adminSecret : String) (req : Req) : Bool :=
  jsOrOpt req.headerSecret req.bodySecret = some adminSecret

/-- The v2 validation `if (!type || !['photo','video'].includes(type))`:
true when the request is rejected with 400. -/
def typeRejected (bodyType : Option String) : Bool :=
  match bodyType with
  | none => true
  | some t => t = "" || (t ≠ "photo" && t ≠ "video")

/-- `Math.round(req.file.buffer.length / 1024)`; exact in Nat arithmetic
since the double computation is exact for sizes below the 100 MB cap. -/
def fileSizeKB (size : Nat) : Nat := (size + 512) / 1024

/-- HTTP responses the v2 `POST /upload` handler can produce. -/
inductive Response where
  | okSuccess (fileName : String) (sizeKB : Nat)
  | badRequest (error : String)
  | unauthorized
  | serverError (error : String)
deriving DecidableEq

/-- The `POST /upload` handler of `part_000`, composed with its `authCheck`
middleware. `delivery` is the outcome of the awaited `sendPhoto` /
`sendVideo`; `notify` is the outcome of the success-notification
`bot.sendMessage`, which sits inside the same try block, so its rejection
also reaches the catch. The failure-path notification in the catch is
wrapped in its own try/catch and so never affects response or state. -/
def handleUpload (adminSecret : String) (st : State) (req : Req)
    (delivery notify : Outcome) (now : String) :
    Response × State × List DeliveryCall :=
  if !(authCheck adminSecret req) then
    (.unauthorized, st, [])
  else
    match req.file with
    | none =>
        (.badRequest "No file received. Send file as form-data field \"file\".", st, [])
    | some f =>
        let fileName := jsOrDefault req.bodyFileName f.originalname
        let kb := fileSizeKB f.bufferBytes.length
        if typeRejected req.bodyType then
          (.badRequest "type must be \"photo\" or \"video\"", st, [])
        else
          let ty := req.bodyType.getD ""
          let call := if ty = "photo" then DeliveryCall.sendPhoto fileName f.bufferBytes
                      else DeliveryCall.sendVideo fileName f.bufferBytes
          match delivery with
          | .failure e => (.serverError e, st, [call])
          | .success =>
              let st1 : State :=
                { uploadCount := st.uploadCount + 1,
                  lastUpload := some now,
                  recentFiles := pushRecent st.recentFiles
                    { name := fileName, type := ty, time := now } }
              match notify with
              | .success => (.okSuccess fileName kb, st1, [call])
              | .failure e => (.serverError e, st1, [call])

end V2

end BackupServer

namespace BackupServer

/-- C1: counterexample. In the admin-panel variant (`index.js`) a request
whose `type` field is absent is not rejected with 400: the handler defaults
the type to photo, issues a sendPhoto delivery call, answers 200 success,
and changes the ledger; a request with `type = "audio"` (outside
{photo, video}) is likewise accepted as a photo. -/
theorem c1_counterexample :
    Admin.handleUpload Admin.initialState
        { file := some { originalname := "a.jpg", bufferBytes := [1, 2, 3],
                         mimetype := "image/jpeg" },
          bodyType := none } .success "t"
      = (.okSuccess "a.jpg",
         { stats := { totalUploaded := 1, totalPhotos := 1, totalVideos := 0,
                      totalFailed := 0, totalBytes := 3 },
           recentFiles := [{ name := "a.jpg", type := "photo", size := 3,
                             status := "ok", time := "t" }] },
         [.sendPhoto "a.jpg" [1, 2, 3]])
    ∧ (Admin.handleUpload Admin.initialState
        { file := some { originalname := "a.jpg", bufferBytes := [1, 2, 3],
                         mimetype := "image/jpeg" },
          bodyType := some "audio" } .success "t").1
      = Admin.Response.okSuccess "a.jpg" := by
  exact ⟨rfl, rfl⟩

/-- C1 (amended): in the v2 variant (`part_000`), every authorized
`POST /upload` request that carries a file but whose `type` field is absent
or outside {photo, video} is answered 400, no delivery call is made, and the
ledger is unchanged. (The admin-panel variant instead defaults such a type
to photo and accepts the upload.) -/
theorem c1_v2_bad_type_rejected (adminSecret now : String) (st : V2.State)
    (req : V2.Req) (d n : Outcome)
    (hauth : V2.authCheck adminSecret req = true)
    (hfile : req.file.isSome = true)
    (hty : V2.typeRejected req.bodyType = true) :
    V2.handleUpload adminSecret st req d n now
      = (.badRequest "type must be \"photo\" or \"video\"", st, []) := by
  rcases hf : req.file with _ | f
  · rw [hf] at hfile; cases hfile
  · simp [V2.handleUpload, hauth, hf, hty]

/-- C1 witness: the amended statement at a concrete authorized request with
`type = "gif"`. -/
theorem c1_v2_bad_type_witness :
    V2.handleUpload "zidhu-secret" V2.initialState
        { headerSecret := some "zidhu-secret", bodySecret := none,
          file := some { originalname := "a.gif", bufferBytes := [7],
                         mimetype := "image/gif" },
          bodyFileName := none, bodyType := some "gif" } .success .success "t"
      = (.badRequest "type must be \"photo\" or \"video\"", V2.initialState, []) :=
  c1_v2_bad_type_rejected "zidhu-secret" "t" V2.initialState _ .success .success
    (by decide) rfl (by decide)

/-- C2: counterexample. In the v2 variant the success notification
`bot.sendMessage` sits inside the same try block as the delivery: when the
delivery succeeds but the notification rejects, the handler falls into the
catch and answers 500 with the notification error, not 200 success. -/
theorem c2_counterexample :
    (V2.handleUpload "zidhu-secret" V2.initialState
        { headerSecret := some "zidhu-secret", bodySecret := none,
          file := some { originalname := "a.jpg", bufferBytes := [1],
                         mimetype := "image/jpeg" },
          bodyFileName := none, bodyType := some "photo" }
        .success (.failure "boom") "t").1
      = V2.Response.serverError "boom" := by
  exact rfl

/-- C2 (amended): for every authorized, valid `POST /upload` whose delivery
to Telegram succeeds, the ledger is updated (uploadCount grows by one); the
response is 200 success when the secondary success notification also
succeeds, but when the notification fails the handler answers 500 with the
notification error instead of the success response. -/
theorem c2_notify_behavior (adminSecret now : String) (st : V2.State)
    (req : V2.Req) (f : UploadedFile) (notify : Outcome)
    (hauth : V2.authCheck adminSecret req = true)
    (hfile : req.file = some f)
    (hty : V2.typeRejected req.bodyType = false) :
    (V2.handleUpload adminSecret st req .success notify now).2.1.uploadCount
        = st.uploadCount + 1
    ∧ (notify = .success →
        (V2.handleUpload adminSecret st req .success notify now).1
          = V2.Response.okSuccess (jsOrDefault req.bodyFileName f.originalname)
              (V2.fileSizeKB f.bufferBytes.length))
    ∧ (∀ e, notify = .failure e →
        (V2.handleUpload adminSecret st req .success notify now).1
          = V2.Response.serverError e) := by
  refine ⟨?_, ?_, ?_⟩ <;>
    cases notify <;>
    simp [V2.handleUpload, hauth, hfile, hty]

/-- C2 witness: the amended statement at a concrete authorized photo upload,
with the successful-notification case instantiated. -/
theorem c2_notify_witness :
    (V2.handleUpload "zidhu-secret" V2.initialState
        { headerSecret := some "zidhu-secret", bodySecret := none,
          file := some { originalname := "a.jpg", bufferBytes := [1],
                         mimetype := "image/jpeg" },
          bodyFileName := none, bodyType := some "photo" }
        .success .success "t").1
      = V2.Response.okSuccess "a.jpg" 0 :=
  (c2_notify_behavior "zidhu-secret" "t" V2.initialState
      { headerSecret := some "zidhu-secret", bodySecret := none,
        file := some { originalname := "a.jpg", bufferBytes := [1],
                       mimetype := "image/jpeg" },
        bodyFileName := none, bodyType := some "photo" }
      { originalname := "a.jpg", bufferBytes := [1], mimetype := "image/jpeg" }
      .success (by decide) rfl (by decide)).2.1 rfl

/-- C8: in the v2 variant, every `POST /upload` request whose shared secret
(`x-secret` header, falling back to the body `secret` field) is missing or
different from the configured secret is answered 401, no delivery call is
made, and the ledger is unchanged. -/
theorem c8_unauthorized (adminSecret now : String) (st : V2.State)
    (req : V2.Req) (d n : Outcome)
    (h : jsOrOpt req.headerSecret req.bodySecret ≠ some adminSecret) :
    V2.handleUpload adminSecret st req d n now = (.unauthorized, st, []) := by
  have hb : V2.authCheck adminSecret req = false := by
    simp [V2.authCheck, h]
  simp [V2.handleUpload, hb]

/-- C8 witness: a concrete request with no secret at all gets 401 with the
ledger untouched and no delivery call. -/
theorem c8_unauthorized_witness :
    V2.handleUpload "zidhu-secret" V2.initialState
        { headerSecret := none, bodySecret := none,
          file := some { originalname := "a.jpg", bufferBytes := [1],
                         mimetype := "image/jpeg" },
          bodyFileName := none, bodyType := some "photo" } .success .success "t"
      = (.unauthorized, V2.initialState, []) :=
  c8_unauthorized "zidhu-secret" "t" V2.initialState _ .success .success
    (by decide)

/-- C10: in the v2 variant authentication is always enforced: with the
`ADMIN_SECRET` env unset the configured secret is the fixed fallback
`zidhu-secret` (auth is not disabled), and for every environment and every
request the handler either answers 401 or the auth check actually passed —
no request skips the check. -/
theorem c10_auth_always_enforced :
    V2.adminSecretOf none = "zidhu-secret"
    ∧ ∀ (env : Option String) (st : V2.State) (req : V2.Req) (d n : Outcome)
        (now : String),
        (V2.handleUpload (V2.adminSecretOf env) st req d n now).1
            = V2.Response.unauthorized
        ∨ V2.authCheck (V2.adminSecretOf env) req = true := by
  refine ⟨rfl, ?_⟩
  intro env st req d n now
  rcases hb : V2.authCheck (V2.adminSecretOf env) req with _ | _
  · left
    simp [V2.handleUpload, hb]
  · right
    rfl

/-- Shape of one `logFile` insertion when the history respects its cap: the
new record is prepended and at most the first `MAX_RECENT - 1` old entries
are kept. -/
theorem Admin.logFile_eq_cons_take (rfs : List Admin.FileRec)
    (n t stt tm : String) (sz : Nat) (h : rfs.length ≤ Admin.MAX_RECENT) :
    Admin.logFile rfs n t sz stt tm
      = { name := n, type := t, size := sz, status := stt, time := tm }
          :: rfs.take (Admin.MAX_RECENT - 1) := by
  unfold Admin.logFile
  by_cases hc : Admin.MAX_RECENT < rfs.length + 1
  · have h50 : rfs.length = Admin.MAX_RECENT := by omega
    simp only [List.length_cons, hc, if_pos]
    rw [List.dropLast_eq_take]
    simp only [List.length_cons, Nat.add_sub_cancel, h50]
    have : Admin.MAX_RECENT = (Admin.MAX_RECENT - 1) + 1 := by decide
    rw [this, List.take_succ_cons]
    simp
  · have hle : rfs.length ≤ Admin.MAX_RECENT - 1 := by omega
    simp only [List.length_cons, hc, if_neg, not_false_iff]
    rw [List.take_of_length_le hle]

/-- C3: in the admin-panel variant, every `POST /upload` request with a file
whose delivery call rejects is answered 500 carrying the error detail,
`totalFailed` grows by exactly one, and `totalUploaded` is unchanged. -/
theorem c3_delivery_error (st : Admin.ServerState) (f : UploadedFile)
    (bt : Option String) (e now : String) :
    (Admin.handleUpload st { file := some f, bodyType := bt } (.failure e) now).1
        = Admin.Response.serverError "Failed to forward to Telegram." e
    ∧ (Admin.handleUpload st { file := some f, bodyType := bt }
        (.failure e) now).2.1.stats.totalFailed = st.stats.totalFailed + 1
    ∧ (Admin.handleUpload st { file := some f, bodyType := bt }
        (.failure e) now).2.1.stats.totalUploaded = st.stats.totalUploaded := by
  refine ⟨?_, ?_, ?_⟩ <;> simp [Admin.handleUpload]

/-- C4: in the admin-panel variant, a successful `POST /upload` of a photo
with an S-byte buffer answers 200 success, changes the counters by exactly
`totalUploaded + 1`, `totalPhotos + 1`, `totalBytes + S` (videos and failed
untouched), and prepends one new ok record to the history; symmetrically a
successful video upload adds one to `totalVideos` instead. -/
theorem c4_success_ledger (st : Admin.ServerState) (name mt now : String)
    (buf : List Nat) (hlen : st.recentFiles.length ≤ Admin.MAX_RECENT) :
    (Admin.handleUpload st
        { file := some { originalname := name, bufferBytes := buf, mimetype := mt },
          bodyType := some "photo" } .success now).1
        = Admin.Response.okSuccess name
    ∧ (Admin.handleUpload st
        { file := some { originalname := name, bufferBytes := buf, mimetype := mt },
          bodyType := some "photo" } .success now).2.1.stats
        = { totalUploaded := st.stats.totalUploaded + 1,
            totalPhotos := st.stats.totalPhotos + 1,
            totalVideos := st.stats.totalVideos,
            totalFailed := st.stats.totalFailed,
            totalBytes := st.stats.totalBytes + buf.length }
    ∧ (Admin.handleUpload st
        { file := some { originalname := name, bufferBytes := buf, mimetype := mt },
          bodyType := some "photo" } .success now).2.1.recentFiles
        = { name := name, type := "photo", size := buf.length, status := "ok",
            time := now } :: st.recentFiles.take (Admin.MAX_RECENT - 1)
    ∧ (Admin.handleUpload st
        { file := some { originalname := name, bufferBytes := buf, mimetype := mt },
          bodyType := some "video" } .success now).2.1.stats
        = { totalUploaded := st.stats.totalUploaded + 1,
            totalPhotos := st.stats.totalPhotos,
            totalVideos := st.stats.totalVideos + 1,
            totalFailed := st.stats.totalFailed,
            totalBytes := st.stats.totalBytes + buf.length } := by
  refine ⟨?_, ?_, ?_, ?_⟩ <;>
    simp [Admin.handleUpload, jsOrDefault, Admin.logFile_eq_cons_take _ _ _ _ _ _ hlen]

/-- C4 witness: the statement at a concrete three-byte photo upload on the
initial state. -/
theorem c4_success_witness :
    (Admin.handleUpload Admin.initialState
        { file := some { originalname := "a.jpg", bufferBytes := [1, 2, 3],
                         mimetype := "image/jpeg" },
          bodyType := some "photo" } .success "t").2.1.stats
      = { totalUploaded := 1, totalPhotos := 1, totalVideos := 0,
          totalFailed := 0, totalBytes := 3 } :=
  (c4_success_ledger Admin.initialState "a.jpg" "image/jpeg" "t" [1, 2, 3]
    (by decide)).2.1

/-- One `logFile` insertion keeps the history within the 50-entry cap. -/
theorem Admin.logFile_length_le (rfs : List Admin.FileRec)
    (n t stt tm : String) (sz : Nat) (h : rfs.length ≤ Admin.MAX_RECENT) :
    (Admin.logFile rfs n t sz stt tm).length ≤ Admin.MAX_RECENT := by
  unfold Admin.logFile
  by_cases hc : Admin.MAX_RECENT < rfs.length + 1
  · simp only [List.length_cons, hc, if_pos]
    rw [List.length_dropLast]
    simp only [List.length_cons, Nat.add_sub_cancel]
    omega
  · simp only [List.length_cons, hc, if_neg, not_false_iff]
    omega

/-- One `pushRecent` insertion keeps the v2 history within the 20-entry
cap. -/
theorem V2.pushRecent_length_le (rfs : List V2.V2FileRec) (r : V2.V2FileRec)
    (h : rfs.length ≤ 20) : (V2.pushRecent rfs r).length ≤ 20 := by
  unfold V2.pushRecent
  by_cases hc : 20 < (rfs ++ [r]).length
  · simp only [hc, if_pos]
    simp
    omega
  · simp only [hc, if_neg, not_false_iff]
    simp at hc ⊢
    omega

/-- C6: for every sequence of insertions from process start, the recent-file
history never exceeds its cap (50 via `logFile` in the admin-panel variant,
20 via push/shift in the v2 variant), and an insertion performed exactly at
the cap evicts the oldest entry: the last one of the newest-first admin
history (`dropLast`), the first one of the oldest-first v2 history
(`tail`). -/
theorem c6_history_cap :
    (∀ items : List Admin.FileRec,
        (Admin.insertAll items).length ≤ Admin.MAX_RECENT)
    ∧ (∀ (rfs : List Admin.FileRec) (n t stt tm : String) (sz : Nat),
        rfs.length = Admin.MAX_RECENT →
        Admin.logFile rfs n t sz stt tm
          = { name := n, type := t, size := sz, status := stt, time := tm }
              :: rfs.dropLast)
    ∧ (∀ items : List V2.V2FileRec, (V2.insertAll items).length ≤ 20)
    ∧ (∀ (rfs : List V2.V2FileRec) (r : V2.V2FileRec), rfs.length = 20 →
        V2.pushRecent rfs r = rfs.tail ++ [r]) := by
  refine ⟨?_, ?_, ?_, ?_⟩
  · intro items
    suffices h : ∀ acc : List Admin.FileRec, acc.length ≤ Admin.MAX_RECENT →
        (items.foldl
          (fun acc r => Admin.logFile acc r.name r.type r.size r.status r.time)
          acc).length ≤ Admin.MAX_RECENT by
      exact h [] (by decide)
    induction items with
    | nil => intro acc hacc; exact hacc
    | cons r items ih =>
        intro acc hacc
        exact ih _ (Admin.logFile_length_le _ _ _ _ _ _ hacc)
  · intro rfs n t stt tm sz hlen
    unfold Admin.logFile
    have hc : Admin.MAX_RECENT < rfs.length + 1 := by omega
    simp only [List.length_cons, hc, if_pos]
    have hne : rfs ≠ [] := by
      intro hnil
      rw [hnil] at hlen
      exact absurd hlen (by decide)
    rw [List.dropLast_cons_of_ne_nil hne]
  · intro items
    suffices h : ∀ acc : List V2.V2FileRec, acc.length ≤ 20 →
        (items.foldl V2.pushRecent acc).length ≤ 20 by
      exact h [] (by decide)
    induction items with
    | nil => intro acc hacc; exact hacc
    | cons r items ih =>
        intro acc hacc
        exact ih _ (V2.pushRecent_length_le _ _ hacc)
  · intro rfs r hlen
    unfold V2.pushRecent
    have hc : 20 < (rfs ++ [r]).length := by simp; omega
    simp only [hc, if_pos]
    rw [List.drop_append_of_le_length (by omega), List.drop_one]

/-- C6 witness: the cap bound at concrete insertion sequences and the
eviction equations at concrete at-cap histories. -/
theorem c6_history_cap_witness :
    (Admin.insertAll []).length ≤ Admin.MAX_RECENT
    ∧ Admin.logFile
        (List.replicate 50 ({ name := "o", type := "photo", size := 1,
                              status := "ok", time := "t0" } : Admin.FileRec))
        "n" "photo" 2 "ok" "t1"
        = { name := "n", type := "photo", size := 2, status := "ok",
            time := "t1" }
            :: (List.replicate 50 ({ name := "o", type := "photo", size := 1,
                                     status := "ok", time := "t0" } :
                                     Admin.FileRec)).dropLast
    ∧ (V2.insertAll []).length ≤ 20
    ∧ V2.pushRecent
        (List.replicate 20 ({ name := "o", type := "photo", time := "t0" } :
                              V2.V2FileRec))
        { name := "n", type := "video", time := "t1" }
        = (List.replicate 20 ({ name := "o", type := "photo", time := "t0" } :
                                V2.V2FileRec)).tail
            ++ [{ name := "n", type := "video", time := "t1" }] :=
  ⟨c6_history_cap.1 [],
   c6_history_cap.2.1 _ "n" "photo" "ok" "t1" 2 (by simp [Admin.MAX_RECENT]),
   c6_history_cap.2.2.1 [],
   c6_history_cap.2.2.2 _ _ (by simp)⟩

/-- C7: for every file list and every page index at or beyond the number of
pages, the file-list surface returns a valid empty page rather than an
error: the displayed chunk is empty, the message is just the header (the
no-files fallback or a page header with no file entries, independent of the
per-entry renderer), and the keyboard degrades to at most a Prev row plus
the main-menu row. -/
theorem c7_empty_page (render : Admin.FileRec → String)
    (files : List Admin.FileRec) (title cbKey : String) (page : Nat)
    (h : (files.length + Admin.PAGE_SIZE - 1) / Admin.PAGE_SIZE ≤ page) :
    Admin.fileChunk files page = []
    ∧ Admin.buildFileListMessage render files title page
        = (if files.length = 0 then title ++ "\n\n_No files yet._"
           else title ++ "\n_Page " ++ toString (page + 1) ++ "/"
             ++ toString ((files.length + Admin.PAGE_SIZE - 1) / Admin.PAGE_SIZE)
             ++ " — " ++ toString files.length ++ " total_\n\n")
    ∧ Admin.buildFileListButtons files cbKey page
        = (if 0 < page then
             [[{ text := "◀ Prev",
                 callback := cbKey ++ "_" ++ toString (page - 1) }]]
           else [])
          ++ [[{ text := "🏠 Main Menu", callback := "menu" }]] := by
  have hlen : files.length ≤ page * Admin.PAGE_SIZE := by
    simp only [Admin.PAGE_SIZE] at h ⊢
    omega
  have hchunk : Admin.fileChunk files page = [] := by
    unfold Admin.fileChunk
    rw [List.drop_eq_nil_of_le hlen]
    rfl
  refine ⟨hchunk, ?_, ?_⟩
  · unfold Admin.buildFileListMessage
    by_cases h0 : files.length = 0
    · simp [h0]
    · rw [if_neg h0, if_neg h0, hchunk]
      rfl
  · unfold Admin.buildFileListButtons
    have hnext : ¬ (page + 1 < (files.length + Admin.PAGE_SIZE - 1) / Admin.PAGE_SIZE) := by
      omega
    by_cases hp : 0 < page
    · simp [hp, hnext]
    · simp [hp, hnext]

/-- C7 witness: a nine-file list has two pages; page 5 renders as an empty
page with only the navigation back to earlier pages. -/
theorem c7_empty_page_witness :
    Admin.fileChunk
        (List.replicate 9 ({ name := "o", type := "photo", size := 1,
                             status := "ok", time := "t0" } : Admin.FileRec)) 5
      = []
    ∧ Admin.buildFileListMessage (fun f => f.name)
        (List.replicate 9 ({ name := "o", type := "photo", size := 1,
                             status := "ok", time := "t0" } : Admin.FileRec))
        "T" 5
      = "T" ++ "\n_Page " ++ "6" ++ "/" ++ "2" ++ " — " ++ "9" ++ " total_\n\n" := by
  have hres := c7_empty_page (fun f => f.name)
    (List.replicate 9 ({ name := "o", type := "photo", size := 1,
                         status := "ok", time := "t0" } : Admin.FileRec))
    "T" "files" 5 (by simp [Admin.PAGE_SIZE])
  refine ⟨hres.1, ?_⟩
  rw [hres.2.1]
  rfl

/-- Per-event bookkeeping of the admin-panel handler: completed forward
attempts add exactly one to `totalUploaded + totalFailed`; other requests
leave the whole state alone. -/
theorem Admin.step_attempt_count (st : Admin.ServerState) (e : Admin.Event) :
    (Admin.step st e).stats.totalUploaded + (Admin.step st e).stats.totalFailed
      = st.stats.totalUploaded + st.stats.totalFailed
        + (if Admin.isAttempt e then 1 else 0) := by
  rcases e with ⟨⟨file, bt⟩, outcome, now⟩
  cases file with
  | none => cases outcome <;> simp [Admin.step, Admin.handleUpload, Admin.isAttempt]
  | some f =>
      cases outcome with
      | success =>
          by_cases hv : jsOrDefault bt "photo" = "video" <;>
            simp [Admin.step, Admin.handleUpload, Admin.isAttempt, hv] <;>
            omega
      | failure e =>
          simp [Admin.step, Admin.handleUpload, Admin.isAttempt]
          omega

/-- C5: after any sequence of upload events from process start,
`totalUploaded + totalFailed` equals the number of completed forward
attempts (successes plus failures), each attempt having updated the ledger
exactly once. -/
theorem c5_ledger_attempt_invariant (evs : List Admin.Event) :
    (Admin.run evs).stats.totalUploaded + (Admin.run evs).stats.totalFailed
      = Admin.countAttempts evs := by
  suffices h : ∀ (evs : List Admin.Event) (st : Admin.ServerState),
      (evs.foldl Admin.step st).stats.totalUploaded
        + (evs.foldl Admin.step st).stats.totalFailed
        = st.stats.totalUploaded + st.stats.totalFailed
          + Admin.countAttempts evs by
    rw [Admin.run, h evs Admin.initialState]
    simp [Admin.initialState]
  intro evs
  induction evs with
  | nil => intro st; simp [Admin.countAttempts]
  | cons e evs ih =>
      intro st
      rw [List.foldl_cons, ih (Admin.step st e), Admin.step_attempt_count]
      have : Admin.countAttempts (e :: evs)
          = (if Admin.isAttempt e then 1 else 0) + Admin.countAttempts evs := by
        by_cases ha : Admin.isAttempt e
        · simp [Admin.countAttempts, List.filter, ha]
          omega
        · simp [Admin.countAttempts, List.filter, ha]
      omega

/-- Per-event bookkeeping of the per-type counters: a successful attempt
adds one to `totalUploaded` and one to `totalPhotos + totalVideos`, and a
failed or rejected event adds to neither. -/
theorem Admin.step_type_count (st : Admin.ServerState) (e : Admin.Event) :
    (Admin.step st e).stats.totalUploaded
        = st.stats.totalUploaded
          + (if Admin.isAttempt e ∧ e.outcome = .success then 1 else 0)
    ∧ (Admin.step st e).stats.totalPhotos + (Admin.step st e).stats.totalVideos
        = st.stats.totalPhotos + st.stats.totalVideos
          + (if Admin.isAttempt e ∧ e.outcome = .success then 1 else 0) := by
  rcases e with ⟨⟨file, bt⟩, outcome, now⟩
  cases file with
  | none =>
      cases outcome <;>
        exact ⟨by simp [Admin.step, Admin.handleUpload, Admin.isAttempt],
               by simp [Admin.step, Admin.handleUpload, Admin.isAttempt]⟩
  | some f =>
      cases outcome with
      | success =>
          by_cases hv : jsOrDefault bt "photo" = "video" <;>
            exact ⟨by simp [Admin.step, Admin.handleUpload, Admin.isAttempt, hv],
                   by simp [Admin.step, Admin.handleUpload, Admin.isAttempt, hv]
                      omega⟩
      | failure e =>
          exact ⟨by simp [Admin.step, Admin.handleUpload, Admin.isAttempt],
                 by simp [Admin.step, Admin.handleUpload, Admin.isAttempt]⟩

/-- C9: in the admin-panel variant, after any sequence of upload events from
process start `totalUploaded = totalPhotos + totalVideos`; a successful
attempt increments `totalUploaded` and exactly one per-type counter, and a
failed attempt increments neither `totalUploaded` nor any per-type
counter. -/
theorem c9_type_counter_invariant :
    (∀ evs : List Admin.Event,
        (Admin.run evs).stats.totalUploaded
          = (Admin.run evs).stats.totalPhotos
            + (Admin.run evs).stats.totalVideos)
    ∧ (∀ (st : Admin.ServerState) (f : UploadedFile) (bt : Option String)
        (now : String),
        (Admin.step st ⟨⟨some f, bt⟩, .success, now⟩).stats.totalUploaded
            = st.stats.totalUploaded + 1
        ∧ (Admin.step st ⟨⟨some f, bt⟩, .success, now⟩).stats.totalPhotos
            + (Admin.step st ⟨⟨some f, bt⟩, .success, now⟩).stats.totalVideos
            = st.stats.totalPhotos + st.stats.totalVideos + 1)
    ∧ (∀ (st : Admin.ServerState) (f : UploadedFile) (bt : Option String)
        (e now : String),
        (Admin.step st ⟨⟨some f, bt⟩, .failure e, now⟩).stats.totalUploaded
            = st.stats.totalUploaded
        ∧ (Admin.step st ⟨⟨some f, bt⟩, .failure e, now⟩).stats.totalPhotos
            = st.stats.totalPhotos
        ∧ (Admin.step st ⟨⟨some f, bt⟩, .failure e, now⟩).stats.totalVideos
            = st.stats.totalVideos) := by
  refine ⟨?_, ?_, ?_⟩
  · intro evs
    suffices h : ∀ (evs : List Admin.Event) (st : Admin.ServerState),
        st.stats.totalUploaded = st.stats.totalPhotos + st.stats.totalVideos →
        (evs.foldl Admin.step st).stats.totalUploaded
          = (evs.foldl Admin.step st).stats.totalPhotos
            + (evs.foldl Admin.step st).stats.totalVideos by
      exact h evs Admin.initialState (by simp [Admin.initialState])
    intro evs
    induction evs with
    | nil => intro st hst; exact hst
    | cons e evs ih =>
        intro st hst
        rw [List.foldl_cons]
        refine ih (Admin.step st e) ?_
        obtain ⟨h1, h2⟩ := Admin.step_type_count st e
        omega
  · intro st f bt now
    constructor <;>
      (by_cases hv : jsOrDefault bt "photo" = "video" <;>
        simp [Admin.step, Admin.handleUpload, hv] <;> omega)
  · intro st f bt e now
    refine ⟨?_, ?_, ?_⟩ <;> simp [Admin.step, Admin.handleUpload]

end BackupServer
